import Mathlib

/-!
Shallow embedding of the institutional-holdings scraper
(`src/src/utils.py`, `src/src/scraper.py`, `src/src/login.py`, `src/src/main.py`).

Strings are modelled as Lean `String` (a list of characters).  Python's
`re` character classes `\s` and `\d`, and the string methods `strip`,
`lower`, `upper`, `isdigit`, are embedded over the code points this
repository's data exercises (ASCII plus the Unicode whitespace code
points that Python's `str` regexes treat as `\s`).
-/

namespace Holdings

/-- Python's `\s` / `str.strip` whitespace class for `str` patterns:
tab, LF, VT, FF, CR, FS, GS, RS, US, space, NEL, NBSP, ogham space,
en-quad..hair-space, line/paragraph separator, narrow NBSP, medium
mathematical space, ideographic space. -/
def pyIsSpace (c : Char) : Bool :=
  [9, 10, 11, 12, 13, 28, 29, 30, 31, 32, 133, 160, 5760,
   8192, 8193, 8194, 8195, 8196, 8197, 8198, 8199, 8200, 8201, 8202,
   8232, 8233, 8239, 8287, 12288].contains c.toNat

/-- Python's `\d` / `str.isdigit` on the ASCII digits. -/
def pyIsDigit (c : Char) : Bool :=
  48 ≤ c.toNat && c.toNat ≤ 57

/-- The range `'A'..'Z'`. -/
def isUpperAZ (c : Char) : Bool :=
  65 ≤ c.toNat && c.toNat ≤ 90

/-- Python `str.lower` on one character (ASCII range). -/
def pyLowerChar (c : Char) : Char :=
  if 65 ≤ c.toNat && c.toNat ≤ 90 then Char.ofNat (c.toNat + 32) else c

/-- Python `str.upper` on one character (ASCII range). -/
def pyUpperChar (c : Char) : Char :=
  if 97 ≤ c.toNat && c.toNat ≤ 122 then Char.ofNat (c.toNat - 32) else c

def pyLowerStr (s : String) : String := String.mk (s.toList.map pyLowerChar)

def pyUpperStr (s : String) : String := String.mk (s.toList.map pyUpperChar)

/-- Python `str.strip()`: drop leading and trailing whitespace. -/
def pyStripList (l : List Char) : List Char :=
  ((l.dropWhile pyIsSpace).reverse.dropWhile pyIsSpace).reverse

def pyStripStr (s : String) : String := String.mk (pyStripList s.toList)

/-- Python `needle in hay` on strings: substring test. -/
def isSubstring (needle hay : String) : Bool :=
  (List.range (hay.toList.length + 1)).any
    (fun i => (hay.toList.drop i).take needle.toList.length == needle.toList)

/-- Embeds `re.sub(r'\s+', ' ', ·)`: each maximal run of whitespace becomes one
space.  The flag records whether the previous character was whitespace. -/
def collapseWsAux : Bool → List Char → List Char
  | _, [] => []
  | prevWs, c :: rest =>
    if pyIsSpace c then
      if prevWs then collapseWsAux true rest
      else ' ' :: collapseWsAux true rest
    else c :: collapseWsAux false rest

/-- Embeds `utils.clean_text` (`src/src/utils.py` lines 7-20): empty guard, then
`re.sub(r'\s+', ' ', text.strip())`, then replace NBSP with space and
en/em dash with hyphen. -/
def cleanText (text : String) : String :=
  if text == "" then ""
  else
    let l := collapseWsAux false (pyStripList text.toList)
    let l := l.map (fun c => if c.toNat = 160 then ' ' else c)
    let l := l.map (fun c => if c.toNat = 8211 || c.toNat = 8212 then '-' else c)
    String.mk l

/-- Embeds `utils.clean_number` (lines 22-33): empty guard, `clean_text`, strip
the characters `()[]` (`re.sub(r'[()\[\]]', '', ·)`), then `strip()`. -/
def cleanNumber (value : String) : String :=
  if value == "" then ""
  else
    let cleaned := cleanText value
    let cleaned := cleaned.toList.filter
      (fun c => !([40, 41, 91, 93].contains c.toNat))
    String.mk (pyStripList cleaned)

/-- Python `str.isdigit`: non-empty and all digit characters. -/
def strIsdigit (l : List Char) : Bool :=
  !l.isEmpty && l.all pyIsDigit

/-- Embeds `utils.parse_percentage` (lines 35-46): empty guard, `clean_text`;
if no `%` is present and the text with `.` and `-` removed `isdigit()`,
append `%`. -/
def parsePercentage (value : String) : String :=
  if value == "" then ""
  else
    let cleaned := cleanText value
    if !(isSubstring "%" cleaned) &&
        strIsdigit (cleaned.toList.filter (fun c => c ≠ '.' && c ≠ '-')) then
      cleaned ++ "%"
    else cleaned

/-- Match of `Q[1-4]\s+\d{4}` (with `re.IGNORECASE`) at position `i`;
returns the matched text.  `\s+` is greedy and the classes `\s`, `\d`
are disjoint, so the match is: `Q`/`q`, a digit 1-4, the maximal
whitespace run (non-empty), then four digit characters. -/
def matchQYearAt (l : List Char) (i : Nat) : Option (List Char) :=
  match l.drop i with
  | q :: d :: rest =>
    if (q == 'Q' || q == 'q') && ['1', '2', '3', '4'].contains d then
      let ws := rest.takeWhile pyIsSpace
      if ws.isEmpty then none
      else
        let year := (rest.dropWhile pyIsSpace).take 4
        if year.length == 4 && year.all pyIsDigit then
          some (q :: d :: (ws ++ year))
        else none
    else none
  | _ => none

/-- Match of `\d{4}\s+Q[1-4]` (with `re.IGNORECASE`) at position `i`;
returns the year digits and the quarter digit. -/
def matchYearQAt (l : List Char) (i : Nat) : Option (List Char × Char) :=
  let s := l.drop i
  let year := s.take 4
  if year.length == 4 && year.all pyIsDigit then
    let rest := s.drop 4
    if (rest.takeWhile pyIsSpace).isEmpty then none
    else
      match rest.dropWhile pyIsSpace with
      | q :: d :: _ =>
        if (q == 'Q' || q == 'q') && ['1', '2', '3', '4'].contains d then
          some (year, d)
        else none
      | _ => none
  else none

/-- Embeds `utils.extract_quarter_from_text` (lines 69-90): empty guard;
`re.search` of `Q[1-4]\s+\d{4}` returns the leftmost match verbatim
(`match.group(0)`); otherwise `re.search` of `\d{4}\s+Q[1-4]` is
reformatted to `f"Q{parts[1][1]} {parts[0]}"`; otherwise `None`. -/
def extractQuarterFromText (text : String) : Option String :=
  if text == "" then none
  else
    match (List.range text.toList.length).findSome? (matchQYearAt text.toList) with
    | some m => some (String.mk m)
    | none =>
      match (List.range text.toList.length).findSome? (matchYearQAt text.toList) with
      | some (year, d) => some (String.mk ('Q' :: d :: ' ' :: year))
      | none => none

/-- A HoldingRecord / Python dict, as an association list in insertion
order. -/
abbrev Record : Type := List (String × String)

/-- Python `dict.__setitem__`: overwrite in place if the key exists,
else append. -/
def dictInsert (d : Record) (k v : String) : Record :=
  if d.any (fun p => p.1 == k) then
    d.map (fun p => if p.1 == k then (k, v) else p)
  else d ++ [(k, v)]

/-- Embeds `utils.format_holdings_data` body for one holding (lines 96-112):
re-map each key case-insensitively onto the canonical schema and clean
its value. -/
def formatHolding (h : Record) : Record :=
  h.foldl (fun fh kv =>
    let kl := pyLowerStr kv.1
    if ["name", "institution", "institution_name"].contains kl then
      dictInsert fh "name" (cleanText kv.2)
    else if ["shares", "shares_held"].contains kl then
      dictInsert fh "shares" (cleanNumber kv.2)
    else if ["value", "market_value", "total_value"].contains kl then
      dictInsert fh "value" (cleanNumber kv.2)
    else if ["percent", "percentage", "percent_portfolio", "% of portfolio"].contains kl then
      dictInsert fh "percent_portfolio" (parsePercentage kv.2)
    else dictInsert fh kv.1 (cleanText kv.2)) []

/-- Embeds `utils.format_holdings_data` (lines 92-114): format each holding,
keeping only non-empty results. -/
def formatHoldingsData (holdingsList : List Record) : List Record :=
  holdingsList.filterMap (fun h =>
    let fh := formatHolding h
    if fh.isEmpty then none else some fh)

/-- Embeds `utils.validate_ticker` regex `^[A-Z]{1,5}$`. -/
def tickerMatches (s : String) : Bool :=
  (decide (1 ≤ s.toList.length) && decide (s.toList.length ≤ 5)) &&
    s.toList.all isUpperAZ

/-- Embeds `utils.validate_ticker` (lines 152-164): empty input raises; the
input is `strip().upper()`-ed and must match `^[A-Z]{1,5}$`, else
raises.  Raises are embedded as `Except.error` with the message. -/
def validateTicker (ticker : String) : Except String String :=
  if ticker == "" then .error "Ticker cannot be empty"
  else
    let t := pyUpperStr (pyStripStr ticker)
    if tickerMatches t then .ok t
    else .error ("Invalid ticker format: " ++ t)

/-- Embeds `scraper._create_header_mapping` (`src/src/scraper.py` lines
133-149): map a column index to a canonical field name by
case-insensitive keyword membership, first rule wins. -/
def createHeaderMapping (headers : List String) : List (Nat × String) :=
  headers.enum.filterMap (fun ih =>
    let hl := pyLowerStr ih.2
    if ["institution", "name", "fund"].any (fun k => isSubstring k hl) then
      some (ih.1, "name")
    else if ["shares", "share"].any (fun k => isSubstring k hl) then
      some (ih.1, "shares")
    else if ["value", "market"].any (fun k => isSubstring k hl) then
      some (ih.1, "value")
    else if ["percent", "%", "portfolio"].any (fun k => isSubstring k hl) then
      some (ih.1, "percent_portfolio")
    else none)

/-- Embeds `header_mapping.get(i, f"column_{i}")` (scraper.py line 119). -/
def fieldNameFor (mapping : List (Nat × String)) (i : Nat) : String :=
  match mapping.find? (fun p => p.1 == i) with
  | some p => p.2
  | none => "column_" ++ toString i

/-- Body of the per-row loop of `scraper._parse_holdings_table` (lines
116-123): enumerate the cells, and for each index below the header
count store the cleaned text under the mapped field name when the
cleaned text is non-empty (`field_name` is always truthy, so the
`if field_name and cell_text` guard reduces to the cell text). -/
def rowStep (mapping : List (Nat × String)) (numHeaders : Nat)
    (rd : Record) (ic : Nat × String) : Record :=
  if ic.1 < numHeaders then
    if cleanText ic.2 ≠ "" then
      dictInsert rd (fieldNameFor mapping ic.1) (cleanText ic.2)
    else rd
  else rd

def rowToRecord (mapping : List (Nat × String)) (numHeaders : Nat)
    (cells : List String) : Record :=
  cells.enum.foldl (rowStep mapping numHeaders) []

/-- Embeds `scraper._parse_holdings_table` (lines 95-131): a table is its list
of `<tr>` rows, each a list of cell texts.  The first row supplies the
headers; each later row with at least 3 cells yields a record, kept
only when non-empty and containing a `name` field. -/
def parseHoldingsTable (rows : List (List String)) : List Record :=
  match rows with
  | [] => []
  | headerRow :: dataRows =>
    let headers := headerRow.map cleanText
    let mapping := createHeaderMapping headers
    dataRows.filterMap (fun cells =>
      if 3 ≤ cells.length then
        let rd := rowToRecord mapping headers.length cells
        if !rd.isEmpty && rd.any (fun p => p.1 == "name") then some rd
        else none
      else none)

/-- Keyword test of `scraper.scrape_current_holdings` (lines 71-78): the
table's header texts are joined with spaces and must contain one of
`institution`, `shares`, `value`, `portfolio` (lower-cased). -/
def headerKeywordMatch (headerTexts : List String) : Bool :=
  ["institution", "shares", "value", "portfolio"].any
    (fun kw => isSubstring kw (pyLowerStr (String.intercalate " " headerTexts)))

/-- Embeds `scraper.scrape_current_holdings` (lines 58-93) over the page's
tables (each a list of rows of cell texts).  The `<th>` texts used for
the keyword test are modelled as the table's first (header) row.  The
first keyword-matching table with a non-empty parse wins; the
div-scanning fallback `_scrape_holdings_alternative_method` (lines
151-176) always returns the empty list (its loop only `pass`es), so a
miss yields `[]`.  The winning holdings are passed through
`format_holdings_data`. -/
def scrapeCurrentHoldings (tables : List (List (List String))) : List Record :=
  match tables.findSome? (fun t =>
      if headerKeywordMatch ((t.headD []).map cleanText) then
        let hs := parseHoldingsTable t
        if hs.isEmpty then none else some hs
      else none) with
  | some hs => formatHoldingsData hs
  | none => formatHoldingsData []

/-- A `div`/`section` container matched by the historical-section class
heuristic: its full text and the tables it contains. -/
structure HistSection where
  text : String
  tables : List (List (List String))

/-- Embeds `scraper._parse_historical_section` (lines 212-237): for each table
in the section, extract a quarter label from the whole section's text;
on success parse the table and keep a `(quarter, holdings)` pair when
the parse is non-empty. -/
def parseHistoricalSection (sec : HistSection) : List (String × List Record) :=
  sec.tables.filterMap (fun table =>
    match extractQuarterFromText sec.text with
    | some q =>
      let hs := parseHoldingsTable table
      if hs.isEmpty then none else some (q, hs)
    | none => none)

/-- A quarter tab/button: its visible text and the page tables visible
after clicking it. -/
structure HistTab where
  text : String
  tablesAfterClick : List (List (List String))

/-- Embeds `scraper._scrape_historical_from_tabs` (lines 239-278): for the
first 8 tab elements (`tab_elements[:8]`), click, extract a quarter
label from the tab's own text, and when present re-run the
current-holdings extraction; keep non-empty results. -/
def scrapeHistoricalFromTabs (tabs : List HistTab) : List (String × List Record) :=
  (tabs.take 8).filterMap (fun tab =>
    match extractQuarterFromText tab.text with
    | some q =>
      let hs := scrapeCurrentHoldings tab.tablesAfterClick
      if hs.isEmpty then none else some (q, hs)
    | none => none)

/-- Embeds `scraper.scrape_historical_holdings` (lines 178-210): accumulate
snapshots from every historical section; if none, fall back to the tab
path; finally truncate to the last 8 quarters
(`historical_data[:8]`). -/
def scrapeHistoricalHoldings (sections : List HistSection) (tabs : List HistTab) :
    List (String × List Record) :=
  let fromSections := sections.foldr (fun s acc => parseHistoricalSection s ++ acc) []
  let historicalData :=
    if fromSections.isEmpty then scrapeHistoricalFromTabs tabs else fromSections
  historicalData.take 8

/-- An `<a>` element on the loaded page: its text and `href`. -/
structure PageLink where
  text : String
  href : String

/-- The XPath probe of `scraper.navigate_to_stock_page` (lines 39-42):
`//a[contains(text(), 'Institutional') or contains(text(), 'Holdings')]`
— case-sensitive, over the link text only. -/
def findsInstitutionalLink (links : List PageLink) : Bool :=
  links.any (fun a =>
    isSubstring "Institutional" a.text || isSubstring "Holdings" a.text)

/-- Outcome of navigation: whether it returned `True`, and the fallback
URL loaded when the XPath probe found nothing. -/
structure NavOutcome where
  success : Bool
  fallbackUrl : Option String
deriving DecidableEq

/-- Embeds `scraper.navigate_to_stock_page` (lines 21-56) over the loaded
page's title and links: a title containing `404` or `not found`
(lower-cased) returns `False`; else if the XPath probe matches some
link it is clicked; else (`NoSuchElementException`) the constructed
`institutional-investors` sub-path URL is loaded. -/
def navigateToStockPage (ticker : String) (title : String)
    (links : List PageLink) : NavOutcome :=
  if isSubstring "404" title || isSubstring "not found" (pyLowerStr title) then
    { success := false, fallbackUrl := none }
  else if findsInstitutionalLink links then
    { success := true, fallbackUrl := none }
  else
    { success := true,
      fallbackUrl := some ("https://www.insidermonkey.com/insider-trading/company/"
        ++ ticker ++ "/institutional-investors/") }

/-- Which log branch `login.login` took (`src/src/login.py`): the
`TimeoutException` handler (line 130), the credential-failure branch
(line 126), or success (line 123). -/
inductive LoginLog
  | timeoutFormElements
  | credentialsIncorrect
  | loginSuccessful
deriving DecidableEq

/-- The browser state `login.login` runs against: whether each required
form element appears within the bounded wait, the URL after submitting,
and whether a logout link is present. -/
structure LoginPage where
  emailFieldPresent : Bool
  passwordFieldPresent : Bool
  submitClickable : Bool
  postSubmitUrl : String
  logoutLinkPresent : Bool

/-- Embeds `login.is_logged_in` (lines 139-161): logged in when the current
URL does not contain `login` (lower-cased), or a logout link exists. -/
def isLoggedIn (p : LoginPage) : Bool :=
  if !(isSubstring "login" (pyLowerStr p.postSubmitUrl)) then true
  else p.logoutLinkPresent

/-- Embeds `login.login` (lines 80-137): a timeout waiting for the email,
password or submit element is caught and returns `False` with the
`Login timeout - page elements not found` log; otherwise the form is
submitted, and `is_logged_in` decides between `True` and the
`Login failed - credentials may be incorrect` log with `False`.  The
caller-visible value is the `Bool`; the log line is the side channel. -/
def loginRun (p : LoginPage) : Bool × LoginLog :=
  if !p.emailFieldPresent || !p.passwordFieldPresent || !p.submitClickable then
    (false, LoginLog.timeoutFormElements)
  else if isLoggedIn p then (true, LoginLog.loginSuccessful)
  else (false, LoginLog.credentialsIncorrect)

/-- The stages of `main.main`'s `try` block after the driver exists
(`src/src/main.py` lines 130-176): `login_handler.login()`,
`scrape_all_data`'s navigation, its extraction, and the export/summary
section. -/
inductive RunStage
  | loginStage
  | navigationStage
  | extractionStage
  | exportStage
deriving DecidableEq

/-- A fault injected into one stage: an exception (or the `sys.exit(1)`
on login failure) or a `KeyboardInterrupt` delivered at that
checkpoint.  Both are caught by `main`'s handlers (lines 178-184) — or,
for `SystemExit`, skip them — and in every case the `finally` block
(lines 186-191) runs. -/
structure FaultSpec where
  stage : RunStage
  isInterrupt : Bool
deriving DecidableEq

/-- Observable events of one run of `main.main`. -/
inductive RunEvent
  | driverCreated
  | stageStarted (s : RunStage)
  | faultRaised (s : RunStage) (interrupt : Bool)
  | closeCalled
  | quitCalled
deriving DecidableEq

/-- The stage order of `main.main`'s `try` block. -/
def stagesInOrder : List RunStage :=
  [RunStage.loginStage, RunStage.navigationStage,
   RunStage.extractionStage, RunStage.exportStage]

/-- The `try`-block body: stages run in order; the faulting stage stops
the body (the raise propagates to the `except`/`finally`). -/
def runBody (fault : Option FaultSpec) : List RunStage → List RunEvent
  | [] => []
  | s :: rest =>
    match fault with
    | some f =>
      if f.stage = s then
        [RunEvent.stageStarted s, RunEvent.faultRaised s f.isInterrupt]
      else RunEvent.stageStarted s :: runBody fault rest
    | none => RunEvent.stageStarted s :: runBody fault rest

/-- Embeds `login.InsiderMonkeyLogin.close` (login.py lines 163-167): quit the
driver when one exists. -/
def closeMethod (driverPresent : Bool) : List RunEvent :=
  if driverPresent then [RunEvent.closeCalled, RunEvent.quitCalled]
  else [RunEvent.closeCalled]

/-- One run of `main.main` (main.py lines 120-191) after `setup_driver`
has created the browser: the `try` body runs until the injected fault
(if any), and the `finally` block calls `login_handler.close()` exactly
once, which quits the live driver. -/
def runMain (fault : Option FaultSpec) : List RunEvent :=
  (RunEvent.driverCreated :: runBody fault stagesInOrder) ++ closeMethod true

/-- The data handed to `utils.save_to_csv`: whether
`data['current_holdings']` and `data['historical_holdings']` are
present and non-empty. -/
structure ExportData where
  hasCurrent : Bool
  hasHistorical : Bool

/-- Fault model for the two `DataFrame.to_csv` writes. -/
structure WriteOracle where
  currentWriteFails : Bool
  historicalWriteFails : Bool

/-- What `utils.save_to_csv` did: which writes were attempted and the
returned `Bool`. -/
structure ExportOutcome where
  currentAttempted : Bool
  historicalAttempted : Bool
  result : Bool
deriving DecidableEq

/-- Embeds `utils.save_to_csv` (`src/src/utils.py` lines 129-150): one `try`
covers both writes in order (current, then historical); the first
failing write jumps to the `except` handler, which logs and returns
`False`, so nothing after it is attempted. -/
def saveToCsv (d : ExportData) (o : WriteOracle) : ExportOutcome :=
  if d.hasCurrent then
    if o.currentWriteFails then
      { currentAttempted := true, historicalAttempted := false, result := false }
    else if d.hasHistorical then
      if o.historicalWriteFails then
        { currentAttempted := true, historicalAttempted := true, result := false }
      else
        { currentAttempted := true, historicalAttempted := true, result := true }
    else
      { currentAttempted := true, historicalAttempted := false, result := true }
  else if d.hasHistorical then
    if o.historicalWriteFails then
      { currentAttempted := false, historicalAttempted := true, result := false }
    else
      { currentAttempted := false, historicalAttempted := true, result := true }
  else
    { currentAttempted := false, historicalAttempted := false, result := true }

theorem dropWhile_eq_self_of_head (p : Char → Bool) :
    ∀ l : List Char, (∀ c ∈ l, p c = false) → l.dropWhile p = l := by
  intro l h
  cases l with
  | nil => rfl
  | cons a t => simp [List.dropWhile_cons, h a (by simp)]

theorem map_id_of_all (f : Char → Char) :
    ∀ l : List Char, (∀ c ∈ l, f c = c) → l.map f = l := by
  intro l h
  induction l with
  | nil => rfl
  | cons a t ih =>
    simp only [List.map_cons, h a (by simp), List.cons.injEq, true_and]
    exact ih (fun c hc => h c (by simp [hc]))

theorem not_space_of_upperAZ (c : Char) (h : isUpperAZ c = true) :
    pyIsSpace c = false := by
  simp only [isUpperAZ, Bool.and_eq_true, decide_eq_true_eq] at h
  rw [Bool.eq_false_iff]
  intro hs
  simp only [pyIsSpace, List.contains_eq_any_beq, List.any_eq_true, List.mem_cons,
    beq_iff_eq, List.not_mem_nil, or_false] at hs
  rcases hs with ⟨n, hn, hbeq⟩
  rcases hn with h9 | h10 | h11 | h12 | h13 | h28 | h29 | h30 | h31 | h32 | h133 |
    h160 | h5760 | h8192 | h8193 | h8194 | h8195 | h8196 | h8197 | h8198 | h8199 |
    h8200 | h8201 | h8202 | h8232 | h8233 | h8239 | h8287 | h12288 <;> subst_vars <;> omega

theorem upperChar_fixed_of_upperAZ (c : Char) (h : isUpperAZ c = true) :
    pyUpperChar c = c := by
  simp only [isUpperAZ, Bool.and_eq_true, decide_eq_true_eq] at h
  unfold pyUpperChar
  rw [if_neg]
  simp only [Bool.and_eq_true, decide_eq_true_eq, not_and]
  omega

theorem mk_toList (s : String) : String.mk s.toList = s := by
  cases s
  rfl

theorem stripList_eq_self (l : List Char) (h : ∀ c ∈ l, pyIsSpace c = false) :
    pyStripList l = l := by
  unfold pyStripList
  rw [dropWhile_eq_self_of_head pyIsSpace l h]
  rw [dropWhile_eq_self_of_head pyIsSpace l.reverse
    (fun c hc => h c (List.mem_reverse.mp hc))]
  exact List.reverse_reverse l

theorem validateTicker_of_matches (s : String) (hm : tickerMatches s = true) :
    validateTicker s = .ok s := by
  have hall : ∀ c ∈ s.toList, isUpperAZ c = true := by
    have := hm
    simp only [tickerMatches, Bool.and_eq_true, List.all_eq_true] at this
    exact this.2
  have hne : ¬((s == "") = true) := by
    intro hb
    have hs : s = "" := eq_of_beq hb
    subst hs
    simp [tickerMatches] at hm
  have hstrip : pyStripStr s = s := by
    unfold pyStripStr
    rw [stripList_eq_self s.toList (fun c hc => not_space_of_upperAZ c (hall c hc))]
    exact mk_toList s
  have hupper : pyUpperStr s = s := by
    unfold pyUpperStr
    rw [map_id_of_all pyUpperChar s.toList
      (fun c hc => upperChar_fixed_of_upperAZ c (hall c hc))]
    exact mk_toList s
  unfold validateTicker
  rw [if_neg hne, hstrip, hupper, if_pos hm]

/-- Claim C1: for the synthetic table with header row
`["Institution", "Shares Held", "% of Portfolio"]` and the single data
row `["Vanguard", "10,000,000", "5.2"]`, the table parse followed by
record-level formatting yields exactly one record
`{name: "Vanguard", shares: "10,000,000", percent_portfolio: "5.2%"}`. -/
theorem claim_C1 :
    formatHoldingsData (parseHoldingsTable
      [["Institution", "Shares Held", "% of Portfolio"],
       ["Vanguard", "10,000,000", "5.2"]]) =
    [[("name", "Vanguard"), ("shares", "10,000,000"),
      ("percent_portfolio", "5.2%")]] := by
  decide

/-- Claim C10: each normalizer maps the empty string to the empty
string; in particular `parse_percentage` does not append `%` to an
empty input.  (Totality holds by construction: the three functions are
total Lean functions.) -/
theorem claim_C10 :
    cleanText "" = "" ∧ cleanNumber "" = "" ∧ parsePercentage "" = "" :=
  ⟨rfl, rfl, rfl⟩

/-- Claim C5, counterexample: the quarter extractor does not always
return the canonical form `Q<digit> <year>`.  The first pattern is
matched with `re.IGNORECASE` and its match is returned verbatim, so the
input `"q1 2024"` yields `"q1 2024"`, not the canonical `"Q1 2024"`. -/
theorem claim_C5_counterexample :
    extractQuarterFromText "q1 2024" = some "q1 2024" ∧
    extractQuarterFromText "q1 2024" ≠ some "Q1 2024" := by
  decide

/-- Claim C5, amended: the extractor matches `Q[1-4]` adjacent to four
digits in either order, case-insensitively; a year-first match is
canonicalized to `Q<digit> <year>`, while a quarter-first match is
returned verbatim (case and internal whitespace preserved).  The three
cited examples hold. -/
theorem claim_C5_amended :
    extractQuarterFromText "Q1 2024 Holdings" = some "Q1 2024" ∧
    extractQuarterFromText "2023 Q4 Summary" = some "Q4 2023" ∧
    extractQuarterFromText "no quarter here" = none ∧
    extractQuarterFromText "q1 2024 Holdings" = some "q1 2024" ∧
    extractQuarterFromText "Q1\t2024" = some "Q1\t2024" ∧
    extractQuarterFromText "2023 q4 Summary" = some "Q4 2023" := by
  decide

/-- Claim C6: historical extraction returns at most 8 quarterly
snapshots for every page, on both the section path and the tab path
(the combined result is truncated by `historical_data[:8]`). -/
theorem claim_C6 :
    ∀ (sections : List HistSection) (tabs : List HistTab),
      (scrapeHistoricalHoldings sections tabs).length ≤ 8 := by
  intro sections tabs
  simp only [scrapeHistoricalHoldings, List.length_take]
  omega

/-- Claim C2: for every run (no fault, or an exception or interrupt
injected at the login, navigation, extraction or export stage), the
teardown in `main`'s `finally` block calls `close()` exactly once and
the live driver is quit exactly once — the browser process is not
leaked. -/
theorem claim_C2 :
    ∀ fault : Option FaultSpec,
      ((runMain fault).count RunEvent.closeCalled = 1) ∧
      ((runMain fault).count RunEvent.quitCalled = 1) := by
  intro fault
  rcases fault with _ | ⟨s, b⟩
  · decide
  · cases s <;> cases b <;> decide

/-- Claim C4, counterexample: the two tabular files are not written
independently.  With both collections present, a failure of the
current-holdings write aborts `save_to_csv`'s single `try` block, so
the historical-holdings write is never attempted. -/
theorem claim_C4_counterexample :
    saveToCsv { hasCurrent := true, hasHistorical := true }
      { currentWriteFails := true, historicalWriteFails := false } =
    { currentAttempted := true, historicalAttempted := false, result := false } :=
  rfl

/-- Claim C4, amended: the two writes share one exception scope, in
order current-then-historical.  A failure of the historical write
leaves the current file already attempted, but a failure of the current
write prevents the historical file from being attempted; either failure
is reported by returning `False`. -/
theorem claim_C4_amended :
    ∀ (d : ExportData) (o : WriteOracle),
      d.hasCurrent = true → d.hasHistorical = true →
      ((o.currentWriteFails = false → o.historicalWriteFails = true →
          (saveToCsv d o).currentAttempted = true ∧
          (saveToCsv d o).result = false) ∧
       (o.currentWriteFails = true →
          (saveToCsv d o).historicalAttempted = false ∧
          (saveToCsv d o).result = false)) := by
  intro d o hc hh
  obtain ⟨dc, dh⟩ := d
  obtain ⟨oc, oh⟩ := o
  simp only at hc hh
  subst hc
  subst hh
  cases oc <;> cases oh <;> exact ⟨fun h1 h2 => by simp_all [saveToCsv],
    fun h1 => by simp_all [saveToCsv]⟩

/-- Claim C4, witness: with both collections present and only the
historical write failing, the current file was attempted and the
function returned `False`. -/
theorem claim_C4_witness :
    (saveToCsv { hasCurrent := true, hasHistorical := true }
      { currentWriteFails := false, historicalWriteFails := true }).currentAttempted
        = true ∧
    (saveToCsv { hasCurrent := true, hasHistorical := true }
      { currentWriteFails := false, historicalWriteFails := true }).result = false :=
  (claim_C4_amended { hasCurrent := true, hasHistorical := true }
    { currentWriteFails := false, historicalWriteFails := true } rfl rfl).1 rfl rfl

/-- Claim C3, counterexample: a form-element timeout and a credential
rejection are not distinguishable by the caller.  `login()` returns the
same value `False` in both situations — the first page below times out
waiting for the form, the second submits but stays on the login page
with no logout link — so only the log line differs. -/
theorem claim_C3_counterexample :
    (loginRun { emailFieldPresent := false, passwordFieldPresent := false,
                submitClickable := false,
                postSubmitUrl := "https://www.insidermonkey.com/login/",
                logoutLinkPresent := false }).1 =
      (loginRun { emailFieldPresent := true, passwordFieldPresent := true,
                  submitClickable := true,
                  postSubmitUrl := "https://www.insidermonkey.com/login/",
                  logoutLinkPresent := false }).1 ∧
    (loginRun { emailFieldPresent := false, passwordFieldPresent := false,
                submitClickable := false,
                postSubmitUrl := "https://www.insidermonkey.com/login/",
                logoutLinkPresent := false }).2 = LoginLog.timeoutFormElements ∧
    (loginRun { emailFieldPresent := true, passwordFieldPresent := true,
                submitClickable := true,
                postSubmitUrl := "https://www.insidermonkey.com/login/",
                logoutLinkPresent := false }).2 = LoginLog.credentialsIncorrect := by
  decide

/-- Claim C3, amended: a timeout waiting for a required form element
makes `login()` log `Login timeout - page elements not found` and
return `False`; credential rejection logs the distinct
`Login failed - credentials may be incorrect` and also returns `False`.
The two cases are distinguishable in the log only — the caller receives
the same `False` either way. -/
theorem claim_C3_amended :
    ∀ p : LoginPage,
      (¬(p.emailFieldPresent = true ∧ p.passwordFieldPresent = true ∧
          p.submitClickable = true) →
        loginRun p = (false, LoginLog.timeoutFormElements)) ∧
      ((p.emailFieldPresent = true ∧ p.passwordFieldPresent = true ∧
          p.submitClickable = true) → isLoggedIn p = false →
        loginRun p = (false, LoginLog.credentialsIncorrect)) ∧
      LoginLog.timeoutFormElements ≠ LoginLog.credentialsIncorrect := by
  intro p
  obtain ⟨e, pw, sb, url, lo⟩ := p
  refine ⟨fun h => ?_, fun h hl => ?_, by decide⟩
  · cases e <;> cases pw <;> cases sb <;> simp_all [loginRun]
  · obtain ⟨he, hpw, hsb⟩ := h
    simp only at he hpw hsb
    subst he
    subst hpw
    subst hsb
    simp [loginRun, hl]

/-- Claim C3, witness: on a page whose email field never appears,
`login()` returns `False` with the form-timeout log. -/
theorem claim_C3_witness :
    loginRun { emailFieldPresent := false, passwordFieldPresent := true,
               submitClickable := true,
               postSubmitUrl := "https://www.insidermonkey.com/login/",
               logoutLinkPresent := false } =
      (false, LoginLog.timeoutFormElements) :=
  (claim_C3_amended
    { emailFieldPresent := false, passwordFieldPresent := true,
      submitClickable := true,
      postSubmitUrl := "https://www.insidermonkey.com/login/",
      logoutLinkPresent := false }).1 (by decide)

/-- Rephrases `findsInstitutionalLink` as an existential over the
page's links. -/
theorem findsInstitutionalLink_iff (links : List PageLink) :
    findsInstitutionalLink links = true ↔
      ∃ a ∈ links, isSubstring "Institutional" a.text = true ∨
        isSubstring "Holdings" a.text = true := by
  simp [findsInstitutionalLink, List.any_eq_true, Bool.or_eq_true]

/-- Claim C7, counterexample: the fallback condition is not the one
claimed.  A page whose only link has text `View investors` and href
`/institutional-investors/` contains a link whose text and href both
contain claimed keywords (`investor`, `institutional`), yet the code's
XPath probe — case-sensitive `Institutional`/`Holdings` over the link
text only — misses it and the fallback URL is loaded anyway. -/
theorem claim_C7_counterexample :
    (navigateToStockPage "AAPL" "Apple Inc"
        [{ text := "View investors", href := "/institutional-investors/" }]).fallbackUrl.isSome
      = true ∧
    isSubstring "investor" "View investors" = true ∧
    isSubstring "institutional" "/institutional-investors/" = true := by
  decide

/-- Claim C7, amended: on a page that passes the 404 title check, the
fallback to the constructed `institutional-investors` sub-path URL is
taken exactly when no in-page link's text contains `Institutional` or
`Holdings` — a case-sensitive test of the link text only; the href is
not examined and `investor` is not among the keywords. -/
theorem claim_C7_amended :
    ∀ (ticker title : String) (links : List PageLink),
      (isSubstring "404" title || isSubstring "not found" (pyLowerStr title)) = false →
      ((navigateToStockPage ticker title links).fallbackUrl.isSome = true ↔
        ¬ ∃ a ∈ links, isSubstring "Institutional" a.text = true ∨
          isSubstring "Holdings" a.text = true) := by
  intro ticker title links h
  by_cases hA : findsInstitutionalLink links = true
  · have hnav : navigateToStockPage ticker title links =
        { success := true, fallbackUrl := none } := by
      simp [navigateToStockPage, h, hA]
    rw [hnav]
    simp only [Option.isSome_none, Bool.false_eq_true, false_iff, not_not]
    exact (findsInstitutionalLink_iff links).mp hA
  · have hA2 : findsInstitutionalLink links = false := by
      simpa using hA
    have hnav : navigateToStockPage ticker title links =
        { success := true,
          fallbackUrl := some ("https://www.insidermonkey.com/insider-trading/company/"
            ++ ticker ++ "/institutional-investors/") } := by
      simp [navigateToStockPage, h, hA2]
    rw [hnav]
    simp only [Option.isSome_some, true_iff]
    intro hex
    rw [(findsInstitutionalLink_iff links).mpr hex] at hA2
    cases hA2

/-- Claim C7, witness: on a linkless page with a normal title, the
fallback URL is loaded. -/
theorem claim_C7_witness :
    (navigateToStockPage "AAPL" "Apple Inc - Stock" []).fallbackUrl.isSome = true :=
  (claim_C7_amended "AAPL" "Apple Inc - Stock" [] (by decide)).mpr (by simp)

/-- Claim C9: ticker validation trims then upper-cases its input and
fails exactly when the result does not match `^[A-Z]{1,5}$` (the empty
input fails through its own guard, and its trimmed form also fails the
regex); on every accepted ticker the validator is idempotent:
validating its output returns the output unchanged. -/
theorem claim_C9 :
    ∀ t : String,
      ((validateTicker t).isOk = tickerMatches (pyUpperStr (pyStripStr t))) ∧
      (∀ s, validateTicker t = .ok s → validateTicker s = .ok s) := by
  intro t
  constructor
  · by_cases h0 : (t == "") = true
    · have ht : t = "" := eq_of_beq h0
      subst ht
      decide
    · simp only [validateTicker, if_neg h0]
      by_cases hm : tickerMatches (pyUpperStr (pyStripStr t)) = true
      · rw [if_pos hm, hm]
        rfl
      · rw [if_neg hm]
        simp only [Bool.not_eq_true] at hm
        rw [hm]
        rfl
  · intro s hs
    unfold validateTicker at hs
    by_cases h0 : (t == "") = true
    · rw [if_pos h0] at hs
      cases hs
    · rw [if_neg h0] at hs
      by_cases hm : tickerMatches (pyUpperStr (pyStripStr t)) = true
      · rw [if_pos hm] at hs
        injection hs with hs2
        subst hs2
        exact validateTicker_of_matches _ hm
      · rw [if_neg hm] at hs
        cases hs

/-- Claim C9, witness: `" aapl "` is accepted as `AAPL`, its failure
test agrees with the regex on the trimmed upper-cased input, and
re-validating `AAPL` is the identity. -/
theorem claim_C9_witness :
    ((validateTicker " aapl ").isOk
        = tickerMatches (pyUpperStr (pyStripStr " aapl "))) ∧
    validateTicker "AAPL" = .ok "AAPL" :=
  ⟨(claim_C9 " aapl ").1, (claim_C9 " aapl ").2 "AAPL" rfl⟩

theorem dictInsert_values_ne (d : Record) (k v : String)
    (hd : ∀ kv ∈ d, kv.2 ≠ "") (hv : v ≠ "") :
    ∀ kv ∈ dictInsert d k v, kv.2 ≠ "" := by
  intro kv hkv
  unfold dictInsert at hkv
  split at hkv
  · rw [List.mem_map] at hkv
    obtain ⟨p, hp, hpe⟩ := hkv
    by_cases hk : (p.1 == k) = true
    · rw [if_pos hk] at hpe
      rw [← hpe]
      exact hv
    · rw [if_neg hk] at hpe
      rw [← hpe]
      exact hd p hp
  · rw [List.mem_append] at hkv
    rcases hkv with h1 | h1
    · exact hd kv h1
    · simp only [List.mem_singleton] at h1
      rw [h1]
      exact hv

theorem rowStep_values_ne (mapping : List (Nat × String)) (numHeaders : Nat)
    (rd : Record) (ic : Nat × String) (hrd : ∀ kv ∈ rd, kv.2 ≠ "") :
    ∀ kv ∈ rowStep mapping numHeaders rd ic, kv.2 ≠ "" := by
  intro kv hkv
  unfold rowStep at hkv
  by_cases h1 : ic.1 < numHeaders
  · rw [if_pos h1] at hkv
    by_cases h2 : cleanText ic.2 ≠ ""
    · rw [if_pos h2] at hkv
      exact dictInsert_values_ne rd _ _ hrd h2 kv hkv
    · rw [if_neg h2] at hkv
      exact hrd kv hkv
  · rw [if_neg h1] at hkv
    exact hrd kv hkv

theorem rowFold_values_ne (mapping : List (Nat × String)) (numHeaders : Nat) :
    ∀ (l : List (Nat × String)) (init : Record),
      (∀ kv ∈ init, kv.2 ≠ "") →
      ∀ kv ∈ l.foldl (rowStep mapping numHeaders) init, kv.2 ≠ "" := by
  intro l
  induction l with
  | nil =>
    intro init hinit kv hkv
    exact hinit kv hkv
  | cons a t ih =>
    intro init hinit kv hkv
    rw [List.foldl_cons] at hkv
    exact ih (rowStep mapping numHeaders init a)
      (rowStep_values_ne mapping numHeaders init a hinit) kv hkv

/-- Claim C8: every record emitted by `_parse_holdings_table` comes
from a data row with at least 3 cells, contains a `name` field, and all
its field values (the `name` in particular) are non-empty; rows with
fewer than 3 cells, or whose mapped name is absent or empty, are never
emitted. -/
theorem claim_C8 :
    ∀ (rows : List (List String)) (r : Record),
      r ∈ parseHoldingsTable rows →
      (∃ headerRow dataRows row, rows = headerRow :: dataRows ∧ row ∈ dataRows ∧
        3 ≤ row.length ∧
        r = rowToRecord (createHeaderMapping (headerRow.map cleanText))
              (headerRow.map cleanText).length row) ∧
      (∃ v, ("name", v) ∈ r) ∧
      (∀ k v, (k, v) ∈ r → v ≠ "") := by
  intro rows r hr
  cases rows with
  | nil =>
    simp [parseHoldingsTable] at hr
  | cons headerRow dataRows =>
    simp only [parseHoldingsTable, List.mem_filterMap] at hr
    obtain ⟨row, hrow, hf⟩ := hr
    by_cases h3 : 3 ≤ row.length
    · rw [if_pos h3] at hf
      by_cases hc : (!(rowToRecord (createHeaderMapping (headerRow.map cleanText))
            (headerRow.map cleanText).length row).isEmpty &&
          (rowToRecord (createHeaderMapping (headerRow.map cleanText))
            (headerRow.map cleanText).length row).any (fun p => p.1 == "name")) = true
      · rw [if_pos hc] at hf
        injection hf with hf2
        subst hf2
        refine ⟨⟨headerRow, dataRows, row, rfl, hrow, h3, rfl⟩, ?_, ?_⟩
        · rw [Bool.and_eq_true] at hc
          rw [List.any_eq_true] at hc
          obtain ⟨p, hp, hpn⟩ := hc.2
          rw [beq_iff_eq] at hpn
          refine ⟨p.2, ?_⟩
          have hpe : ("name", p.2) = p := by
            rw [← hpn]
          rw [hpe]
          exact hp
        · intro k v hkv
          exact rowFold_values_ne (createHeaderMapping (headerRow.map cleanText))
            (headerRow.map cleanText).length row.enum []
            (fun kv hkv2 => absurd hkv2 (List.not_mem_nil kv)) (k, v) hkv
      · rw [if_neg hc] at hf
        cases hf
    · rw [if_neg h3] at hf
      cases hf

/-- Claim C8, witness: the record parsed from the data row
`["BlackRock", "1", "2"]` under headers `["Fund", "Shares", "Value"]`
has a `name` field and only non-empty values. -/
theorem claim_C8_witness :
    (∃ v, ("name", v) ∈
      ([("name", "BlackRock"), ("shares", "1"), ("value", "2")] : Record)) ∧
    (∀ k v, (k, v) ∈
      ([("name", "BlackRock"), ("shares", "1"), ("value", "2")] : Record) →
      v ≠ "") := by
  have h := claim_C8 [["Fund", "Shares", "Value"], ["BlackRock", "1", "2"]]
    [("name", "BlackRock"), ("shares", "1"), ("value", "2")] (by decide)
  exact ⟨h.2.1, h.2.2⟩

end Holdings
